import Mathlib

/-!
Verification of the multi-bot orchestration core of the repository.

The definitions below are a shallow embedding of the JavaScript source:

* the in-memory command-lock table of `src/orchestrator.js`
  (`acquireCommandLock`, `releaseCommandLock`, `hasCommandLock`);
* the durable guild-assignment store of `src/schemas/GuildAssignment.js`
  (`getOrCreateAssignment`, `releaseInactiveAssignments`, `touch`);
* the load balancer of `src/managers/LoadBalancer.js`
  (`_updateBotStatus`, `_selectByPriority`, `_selectByRoundRobin`, `assignBot`);
* the per-command routing decision of
  `src/events/Client/InteractionCreate.js` (`shouldHandleCommand`).

Timestamps (JavaScript `Date.now()` values) are modelled as `Nat`.  The JS
expression `now - t > LOCK_TIMEOUT` on numbers agrees with the truncated
`Nat` subtraction used here: whenever `now < t` both give `false`, and for
`now ≥ t` the two subtractions coincide.  JavaScript `Map`s are modelled as
partial functions, mongoose collections as lists of rows, and the stable
`Array.prototype.sort` as `List.insertionSort` (any two stable sorts agree
on a total preorder).
-/

/-! ### Lock table (`src/orchestrator.js`, lines 38–108) -/

/-- One entry of the `commandLocks` map: `{ botId, timestamp }`. -/
structure LockEntry where
  botId : String
  timestamp : Nat
deriving DecidableEq, Repr

/-- The `commandLocks` map, keyed by guild id. -/
abbrev LockTable := String → Option LockEntry

/-- `commandLocks.set(guildId, entry)`. -/
def LockTable.set (locks : LockTable) (guildId : String) (entry : LockEntry) : LockTable :=
  fun k => if k = guildId then some entry else locks k

/-- `commandLocks.delete(guildId)`. -/
def LockTable.del (locks : LockTable) (guildId : String) : LockTable :=
  fun k => if k = guildId then none else locks k

/-- The empty lock table. -/
def LockTable.empty : LockTable := fun _ => none

/-- `LOCK_TIMEOUT = 10000` (10 seconds). -/
def LOCK_TIMEOUT : Nat := 10000

/-- `acquireCommandLock(guildId, botId)`, with the current time passed
explicitly.  Returns the boolean result together with the updated table. -/
def acquireCommandLock (locks : LockTable) (guildId botId : String) (now : Nat) :
    Bool × LockTable :=
  match locks guildId with
  | some existing =>
    if now - existing.timestamp > LOCK_TIMEOUT then
      -- expired: remove it, then fall through and acquire
      let locks := locks.del guildId
      (true, locks.set guildId ⟨botId, now⟩)
    else if existing.botId ≠ botId then
      -- another bot has the lock and it is not expired
      (false, locks)
    else
      -- this bot already has the lock
      (true, locks)
  | none => (true, locks.set guildId ⟨botId, now⟩)

/-- `releaseCommandLock(guildId, botId)`. -/
def releaseCommandLock (locks : LockTable) (guildId botId : String) : LockTable :=
  match locks guildId with
  | some existing => if existing.botId = botId then locks.del guildId else locks
  | none => locks

/-- `hasCommandLock(guildId, botId)`: lazily expires, then tests ownership. -/
def hasCommandLock (locks : LockTable) (guildId botId : String) (now : Nat) :
    Bool × LockTable :=
  match locks guildId with
  | none => (false, locks)
  | some existing =>
    if now - existing.timestamp > LOCK_TIMEOUT then
      (false, locks.del guildId)
    else
      (existing.botId = botId, locks)

/-- Run a sequence of `acquireCommandLock` calls for one guild; each element
of `calls` is a `(botId, time)` pair.  Returns the list of results and the
final table. -/
def runAcquires (locks : LockTable) (guildId : String) :
    List (String × Nat) → List Bool × LockTable
  | [] => ([], locks)
  | (botId, t) :: rest =>
    let step := acquireCommandLock locks guildId botId t
    let tail := runAcquires step.2 guildId rest
    (step.1 :: tail.1, tail.2)

/-! ### Assignment store (`src/schemas/GuildAssignment.js`) -/

/-- `assignmentReason` enum. -/
inductive AssignmentReason
  | auto
  | manual
  | failover
  | priority
deriving DecidableEq, Repr

/-- One `GuildAssignment` document. -/
structure Assignment where
  _id : String
  assignedBotId : String
  assignedClientId : String
  voiceChannelId : Option String
  textChannelId : Option String
  isActive : Bool
  assignedAt : Nat
  lastActivity : Nat
  assignmentReason : AssignmentReason
  previousBotId : Option String
deriving DecidableEq, Repr

/-- The assignment collection. -/
abbrev AssignmentStore := List Assignment

/-- `GuildAssignment.findById(guildId)`. -/
def findById (store : AssignmentStore) (guildId : String) : Option Assignment :=
  store.find? (fun a => a._id = guildId)

/-- A fresh document created with the schema defaults
(`isActive: false`, null channels, timestamps set to now). -/
def newAssignment (guildId botId clientId : String) (reason : AssignmentReason)
    (now : Nat) : Assignment :=
  { _id := guildId
    assignedBotId := botId
    assignedClientId := clientId
    voiceChannelId := none
    textChannelId := none
    isActive := false
    assignedAt := now
    lastActivity := now
    assignmentReason := reason
    previousBotId := none }

/-- `GuildAssignment.getOrCreateAssignment(guildId, botId, clientId, reason)`:
returns the existing row unchanged, or creates one with the defaults. -/
def getOrCreateAssignment (store : AssignmentStore) (guildId botId clientId : String)
    (reason : AssignmentReason) (now : Nat) : Assignment × AssignmentStore :=
  match findById store guildId with
  | some assignment => (assignment, store)
  | none =>
    let assignment := newAssignment guildId botId clientId reason now
    (assignment, store ++ [assignment])

/-- `assignment.touch()` applied to the row with the given id:
refresh `lastActivity`, save. -/
def touchById (store : AssignmentStore) (guildId : String) (now : Nat) : AssignmentStore :=
  store.map fun a => if a._id = guildId then { a with lastActivity := now } else a

/-- The per-row effect of `releaseInactiveAssignments`: rows matching the
filter `{ isActive: true, lastActivity: { $lt: now - threshold } }` get
`$set: { isActive: false }`. -/
def sweepRow (now threshold : Nat) (a : Assignment) : Assignment :=
  if a.isActive = true ∧ a.lastActivity < now - threshold then
    { a with isActive := false }
  else a

/-- `GuildAssignment.releaseInactiveAssignments(inactiveThreshold)`
(`updateMany` over the collection; default threshold 300000 ms). -/
def releaseInactiveAssignments (store : AssignmentStore) (now threshold : Nat) :
    AssignmentStore :=
  store.map (sweepRow now threshold)

/-! ### Bot cluster model -/

/-- A Lavalink player, as seen by the routing code: only its
`voiceChannelId` (possibly null) matters. -/
structure Player where
  voiceChannelId : Option String
deriving DecidableEq, Repr

/-- A bot's `lavalink` manager: its `players` map (guild id to player). -/
structure LavalinkMgr where
  players : List (String × Player)
deriving DecidableEq, Repr

/-- One `BotClient`: id, Discord client id (`botConfig.clientId`),
`isMainBot` flag, `isReady()` result, the cached `client.playerCount`
written by the heartbeat, and the optional `lavalink` manager. -/
structure BotClient where
  botId : String
  clientId : String
  isMainBot : Bool
  ready : Bool
  playerCount : Nat
  lavalink : Option LavalinkMgr
deriving DecidableEq, Repr

/-- The `botCluster` map in insertion order (`Map` iteration order). -/
abbrev BotCluster := List (String × BotClient)

/-- `map.get(key)` on an association list. -/
def assocGet {α : Type} (l : List (String × α)) (key : String) : Option α :=
  (l.find? (fun p => p.1 = key)).map (fun p => p.2)

/-- `client.lavalink?.players?.get(guildId)`. -/
def getPlayer (client : BotClient) (guildId : String) : Option Player :=
  client.lavalink.bind fun mgr => assocGet mgr.players guildId

/-- The voice channel of this client's player for the guild, when the player
exists and has a non-null `voiceChannelId` (the truthiness test
`existingPlayer && existingPlayer.voiceChannelId` of the source). -/
def playerChannel (client : BotClient) (guildId : String) : Option String :=
  (getPlayer client guildId).bind fun p => p.voiceChannelId

/-- `client.lavalink?.players?.size || 0`. -/
def livePlayers (client : BotClient) : Nat :=
  match client.lavalink with
  | some mgr => mgr.players.length
  | none => 0

/-! ### Load balancer (`src/managers/LoadBalancer.js`) -/

/-- Bot status values written by the heartbeat. -/
inductive BotStatusKind
  | Available
  | InUse
  | Offline
  | Starting
  | Error
deriving DecidableEq, Repr

/-- `_updateBotStatus(client)`: recompute the cached player count and the
status that is persisted via `client.updateStatus`. -/
def updateBotStatus (client : BotClient) (maxPlayersPerBot : Nat) :
    BotClient × BotStatusKind :=
  let playerCount := livePlayers client
  let client' := { client with playerCount := playerCount }
  let status :=
    if client.ready = false then BotStatusKind.Offline
    else if playerCount ≥ maxPlayersPerBot then BotStatusKind.InUse
    else if playerCount > 0 then BotStatusKind.InUse
    else BotStatusKind.Available
  (client', status)

/-- The `_selectByPriority` sort comparator as a boolean "less or equal":
main bot first, then ascending cached `playerCount`.  `priorityCmpLe a b`
holds exactly when the JS comparator returns a non-positive number on
`(a, b)`. -/
def priorityCmpLe (a b : String × BotClient) : Bool :=
  if a.2.isMainBot = true ∧ b.2.isMainBot = false then true
  else if a.2.isMainBot = false ∧ b.2.isMainBot = true then false
  else a.2.playerCount ≤ b.2.playerCount

/-- `_selectByPriority()`: filter to ready bots, stable-sort main-first then
by cached player count, return the first under live capacity, else the head
of the sorted list, else null. -/
def selectByPriority (cluster : BotCluster) (maxPlayersPerBot : Nat) :
    Option (String × BotClient) :=
  let sortedBots :=
    List.insertionSort (fun a b => priorityCmpLe a b = true)
      (cluster.filter fun p => p.2.ready)
  match sortedBots.find? (fun p => livePlayers p.2 < maxPlayersPerBot) with
  | some hit => some hit
  | none => sortedBots.head?

/-- `_selectByRoundRobin()`: ready bots sorted by cached player count,
first one (effectively least-loaded). -/
def selectByRoundRobin (cluster : BotCluster) : Option (String × BotClient) :=
  let availableBots :=
    List.insertionSort (fun a b => a.2.playerCount ≤ b.2.playerCount)
      (cluster.filter fun p => p.2.ready)
  availableBots.head?

/-- Load-balancing strategies. -/
inductive Strategy
  | priority
  | roundRobin
deriving DecidableEq, Repr

/-- `_selectBot()`: dispatch on the configured strategy
(default and fallback are both `priority`). -/
def selectBot (strategy : Strategy) (cluster : BotCluster) (maxPlayersPerBot : Nat) :
    Option (String × BotClient) :=
  match strategy with
  | Strategy.priority => selectByPriority cluster maxPlayersPerBot
  | Strategy.roundRobin => selectByRoundRobin cluster

/-- What `assignBot` returns on success:
`{ botId, client, assignment }`. -/
structure AssignResult where
  botId : String
  client : BotClient
  assignment : Assignment
deriving DecidableEq, Repr

/-- The full outcome of one `assignBot` call: the returned value, the store
after the call, and whether the selection step (`_selectBot`) ran.  The
last component is instrumentation used to state sticky routing; it does not
influence the computed result. -/
structure AssignOutcome where
  result : Option AssignResult
  store : AssignmentStore
  selectorInvoked : Bool
deriving DecidableEq, Repr

/-- `LoadBalancer.assignBot(guildId)`. -/
def assignBot (cluster : BotCluster) (strategy : Strategy) (maxPlayersPerBot : Nat)
    (store : AssignmentStore) (guildId : String) (now : Nat) : AssignOutcome :=
  let existingAssignment := findById store guildId
  -- sticky branch: active assignment whose bot is present and ready
  let sticky : Option (Assignment × BotClient) :=
    match existingAssignment with
    | some a =>
      if a.isActive = true then
        match assocGet cluster a.assignedBotId with
        | some client => if client.ready = true then some (a, client) else none
        | none => none
      else none
    | none => none
  match sticky with
  | some (a, client) =>
    { result := some
        { botId := a.assignedBotId
          client := client
          assignment := { a with lastActivity := now } }
      store := touchById store guildId now
      selectorInvoked := false }
  | none =>
    match selectBot strategy cluster maxPlayersPerBot with
    | none => { result := none, store := store, selectorInvoked := true }
    | some (botId, client) =>
      let reason :=
        if existingAssignment.isSome then AssignmentReason.failover
        else AssignmentReason.auto
      let created := getOrCreateAssignment store guildId botId client.clientId reason now
      { result := some { botId := botId, client := client, assignment := created.1 }
        store := created.2
        selectorInvoked := true }

/-! ### Router (`src/events/Client/InteractionCreate.js`, `shouldHandleCommand`) -/

/-- Lexicographic "less or equal" on character lists by code point,
modelling `String.prototype.localeCompare` on the ASCII bot ids
(`"bot-1"`, `"bot-2"`, ...). -/
def strLexLe : List Char → List Char → Bool
  | [], _ => true
  | _ :: _, [] => false
  | a :: as, b :: bs =>
    if a.val < b.val then true
    else if b.val < a.val then false
    else strLexLe as bs

/-- `a.id.localeCompare(b.id) <= 0` for bot ids. -/
def idLe (a b : String) : Bool := strLexLe a.data b.data

/-- Find the main bot: the first client in cluster iteration order with
`isMainBot` set. -/
def findMainBot (bots : BotCluster) : Option BotClient :=
  (bots.find? fun p => p.2.isMainBot).map fun p => p.2

/-- The availability test of the failover loop: no player, a player with no
voice channel, or a player already in the user's voice channel. -/
def isAvailableFailover (client : BotClient) (guildId userVoiceChannelId : String) : Bool :=
  match getPlayer client guildId with
  | none => true
  | some failoverPlayer =>
    match failoverPlayer.voiceChannelId with
    | none => true
    | some v => v = userVoiceChannelId

/-- The non-main bots sorted by id, then the first available one — the
failover priority scan of `shouldHandleCommand`. -/
def firstAvailableFailover (bots : BotCluster) (guildId userVoiceChannelId : String) :
    Option (String × BotClient) :=
  let failoverBots :=
    List.insertionSort (fun a b => idLe a.1 b.1 = true)
      (bots.filter fun p => p.2.isMainBot = false)
  failoverBots.find? fun p => isAvailableFailover p.2 guildId userVoiceChannelId

/-- The lock probe a failover bot runs first: if it does not already hold
the lock, test whether the lock is free by acquiring and immediately
releasing it.  Returns whether the probe passed and the table afterwards. -/
def lockProbe (locks : LockTable) (guildId botId : String) (now : Nat) :
    Bool × LockTable :=
  let has := hasCommandLock locks guildId botId now
  if has.1 = true then (true, has.2)
  else
    let got := acquireCommandLock has.2 guildId botId now
    if got.1 = true then (true, releaseCommandLock got.2 guildId botId)
    else (false, got.2)

/-- The main-bot branch of `shouldHandleCommand`. -/
def mainShouldHandle (store : AssignmentStore) (locks : LockTable) (client : BotClient)
    (guildId : String) (isMusicCommand : Bool) (userVoiceChannelId : Option String)
    (now : Nat) : Bool × LockTable :=
  -- busy in a different voice channel than the user?
  let busyElsewhere :=
    isMusicCommand &&
      (match userVoiceChannelId with
       | some u =>
         match playerChannel client guildId with
         | some v => v ≠ u
         | none => false
       | none => false)
  if busyElsewhere = true then (false, locks)
  else
    -- guild actively assigned to another bot?
    let assignedElsewhere :=
      isMusicCommand &&
        (match findById store guildId with
         | some assignment => assignment.isActive && assignment.assignedBotId ≠ client.botId
         | none => false)
    if assignedElsewhere = true then (false, locks)
    else if isMusicCommand = true then
      (true, (acquireCommandLock locks guildId client.botId now).2)
    else (true, locks)

/-- The failover-bot branch of `shouldHandleCommand`. -/
def failoverShouldHandle (bots : BotCluster) (store : AssignmentStore) (locks : LockTable)
    (client : BotClient) (guildId : String) (isMusicCommand : Bool)
    (userVoiceChannelId : Option String) (now : Nat) : Bool × LockTable :=
  if isMusicCommand = false then (false, locks)
  else
    let probe := lockProbe locks guildId client.botId now
    if probe.1 = false then (false, probe.2)
    else
      let locks3 := probe.2
      -- own player for this guild?
      let ownPlayer : Option (Bool × LockTable) :=
        match userVoiceChannelId with
        | some u =>
          match playerChannel client guildId with
          | some v =>
            if v ≠ u then some (false, locks3)
            else some (true, (acquireCommandLock locks3 guildId client.botId now).2)
          | none => none
        | none => none
      match ownPlayer with
      | some result => result
      | none =>
        -- actively assigned to this bot?
        let assignedHere :=
          match findById store guildId with
          | some assignment => assignment.isActive && assignment.assignedBotId = client.botId
          | none => false
        if assignedHere = true then
          (true, (acquireCommandLock locks3 guildId client.botId now).2)
        else
          -- takeover from the main bot
          match userVoiceChannelId with
          | none => (false, locks3)
          | some u =>
            match findMainBot bots with
            | none => (false, locks3)
            | some mainBotClient =>
              match mainBotClient.lavalink with
              | none => (false, locks3)
              | some mgr =>
                match (assocGet mgr.players guildId).bind (fun p => p.voiceChannelId) with
                | none => (false, locks3)
                | some mainVC =>
                  if mainVC = u then (false, locks3)
                  else
                    match firstAvailableFailover bots guildId u with
                    | none => (false, locks3)
                    | some failover =>
                      if failover.2.botId = client.botId then
                        acquireCommandLock locks3 guildId client.botId now
                      else (false, locks3)

/-- `shouldHandleCommand(client, guildId, isMusicCommand, userVoiceChannelId)`,
evaluated against the shared orchestrator state (cluster, assignment store,
lock table) at the given time.  Returns the decision and the lock table
after the call. -/
def shouldHandleCommand (bots : BotCluster) (store : AssignmentStore) (locks : LockTable)
    (client : BotClient) (guildId : String) (isMusicCommand : Bool)
    (userVoiceChannelId : Option String) (now : Nat) : Bool × LockTable :=
  if client.isMainBot = true then
    mainShouldHandle store locks client guildId isMusicCommand userVoiceChannelId now
  else
    failoverShouldHandle bots store locks client guildId isMusicCommand userVoiceChannelId now

/-! ### Lock-table theorems -/

/-- C2: per-call contract of `acquireCommandLock`: with no entry it succeeds
and installs an entry owned by `botId` stamped `now`, touching no other key;
with an expired entry it succeeds and replaces the entry the same way; with
a live entry of another bot it fails and leaves the whole table unchanged;
with a live entry of the same bot it succeeds idempotently, leaving the
table (and hence the original timestamp) unchanged. -/
theorem acquireCommandLock_contract (locks : LockTable) (guildId botId : String)
    (now : Nat) :
    (locks guildId = none →
      (acquireCommandLock locks guildId botId now).1 = true
      ∧ (acquireCommandLock locks guildId botId now).2 guildId = some ⟨botId, now⟩
      ∧ ∀ k, k ≠ guildId → (acquireCommandLock locks guildId botId now).2 k = locks k)
    ∧ (∀ e, locks guildId = some e → now - e.timestamp > LOCK_TIMEOUT →
      (acquireCommandLock locks guildId botId now).1 = true
      ∧ (acquireCommandLock locks guildId botId now).2 guildId = some ⟨botId, now⟩
      ∧ ∀ k, k ≠ guildId → (acquireCommandLock locks guildId botId now).2 k = locks k)
    ∧ (∀ e, locks guildId = some e → ¬(now - e.timestamp > LOCK_TIMEOUT) →
        e.botId ≠ botId →
      acquireCommandLock locks guildId botId now = (false, locks))
    ∧ (∀ e, locks guildId = some e → ¬(now - e.timestamp > LOCK_TIMEOUT) →
        e.botId = botId →
      acquireCommandLock locks guildId botId now = (true, locks)) := by
  refine ⟨fun hnone => ?_, fun e he hexp => ?_, fun e he hexp hne => ?_, fun e he hexp heq => ?_⟩
  · simp only [acquireCommandLock, hnone, LockTable.set]
    refine ⟨by simp, by simp, fun k hk => by simp [hk]⟩
  · simp only [acquireCommandLock, he, hexp, if_pos, LockTable.set, LockTable.del]
    refine ⟨by simp, by simp, fun k hk => by simp [hk]⟩
  · simp [acquireCommandLock, he, hexp, hne]
  · simp [acquireCommandLock, he, hexp, heq]

/-- Witness for C2: the contract applied to a table holding an expired
entry of another bot. -/
theorem acquireCommandLock_contract_witness :
    (acquireCommandLock (LockTable.empty.set "guild1" ⟨"Z", 0⟩) "guild1" "A" 20000).1 = true
    ∧ (acquireCommandLock (LockTable.empty.set "guild1" ⟨"Z", 0⟩) "guild1" "A" 20000).2 "guild1"
        = some ⟨"A", 20000⟩ := by
  have h := (acquireCommandLock_contract (LockTable.empty.set "guild1" ⟨"Z", 0⟩)
    "guild1" "A" 20000).2.1 ⟨"Z", 0⟩ (by decide) (by decide)
  exact ⟨h.1, h.2.1⟩

/-- C7: `releaseCommandLock` removes the entry exactly when the current
entry is owned by the calling bot, and is a no-op on any other state; in
particular, after bot A's lock expires and bot B reacquires, A's release
leaves B's lock in place (closing scenario). -/
theorem releaseCommandLock_ownerGated (locks : LockTable) (guildId botId : String) :
    ((∀ e, locks guildId = some e → e.botId = botId →
        releaseCommandLock locks guildId botId guildId = none
        ∧ ∀ k, k ≠ guildId → releaseCommandLock locks guildId botId k = locks k)
    ∧ (∀ e, locks guildId = some e → e.botId ≠ botId →
        releaseCommandLock locks guildId botId = locks)
    ∧ (locks guildId = none → releaseCommandLock locks guildId botId = locks))
    ∧ ((acquireCommandLock LockTable.empty "guild1" "A" 0).1 = true
      ∧ (acquireCommandLock (acquireCommandLock LockTable.empty "guild1" "A" 0).2
            "guild1" "B" 5000).1 = false
      ∧ (acquireCommandLock (acquireCommandLock LockTable.empty "guild1" "A" 0).2
            "guild1" "B" 10001).1 = true
      ∧ releaseCommandLock
            (acquireCommandLock (acquireCommandLock LockTable.empty "guild1" "A" 0).2
              "guild1" "B" 10001).2 "guild1" "A" "guild1"
          = some ⟨"B", 10001⟩) := by
  constructor
  · refine ⟨fun e he heq => ?_, fun e he hne => ?_, fun hnone => ?_⟩
    · simp only [releaseCommandLock, he, heq, if_pos, LockTable.del]
      exact ⟨by simp, fun k hk => by simp [hk]⟩
    · simp [releaseCommandLock, he, hne]
    · simp [releaseCommandLock, hnone]
  · refine ⟨by decide, by decide, by decide, by decide⟩

/-- Witness for C7: the owner-gated removal applied to a concrete
single-entry table. -/
theorem releaseCommandLock_ownerGated_witness :
    releaseCommandLock (LockTable.empty.set "guild1" ⟨"A", 0⟩) "guild1" "A" "guild1" = none
    ∧ releaseCommandLock (LockTable.empty.set "guild1" ⟨"B", 0⟩) "guild1" "A" "guild1"
        = some ⟨"B", 0⟩ := by
  have h1 := ((releaseCommandLock_ownerGated (LockTable.empty.set "guild1" ⟨"A", 0⟩)
    "guild1" "A").1.1 ⟨"A", 0⟩ (by decide) rfl).1
  have h2 := (releaseCommandLock_ownerGated (LockTable.empty.set "guild1" ⟨"B", 0⟩)
    "guild1" "A").1.2.1 ⟨"B", 0⟩ (by decide) (by decide)
  refine ⟨h1, ?_⟩
  rw [h2]
  decide

/-- Helper for C1: once the table holds a live entry, every later acquire
inside that entry's timeout window by a different bot fails and leaves the
table unchanged. -/
theorem runAcquires_allFalse (guildId owner : String) (t0 : Nat) :
    ∀ (calls : List (String × Nat)) (locks : LockTable),
      locks guildId = some ⟨owner, t0⟩ →
      (∀ p ∈ calls, (p : String × Nat).1 ≠ owner) →
      (∀ p ∈ calls, (p : String × Nat).2 ≤ t0 + LOCK_TIMEOUT) →
      runAcquires locks guildId calls = (calls.map fun _ => false, locks) := by
  intro calls
  induction calls with
  | nil => intro locks _ _ _; rfl
  | cons head rest ih =>
    intro locks hlock hne hwin
    obtain ⟨b, t⟩ := head
    have hexp : ¬ (t - t0 > LOCK_TIMEOUT) := by
      have := hwin (b, t) (by simp)
      simp only at this
      omega
    have hb : b ≠ owner := hne (b, t) (by simp)
    have hb' : ¬ owner = b := fun h => hb h.symm
    have hstep : acquireCommandLock locks guildId b t = (false, locks) := by
      simp [acquireCommandLock, hlock, hexp, hb']
    simp only [runAcquires, hstep]
    have htail := ih locks hlock
      (fun p hp => hne p (List.mem_cons_of_mem _ hp))
      (fun p hp => hwin p (List.mem_cons_of_mem _ hp))
    simp [htail]

/-- C1 (amended): at most one bot holds a valid lock per guild in any
table state — so every operation sequence preserves the one-owner
invariant — and a sequence of acquire calls by pairwise-distinct bots,
starting from a state whose entry for the key (if any) is expired at the
first call, all within the first call's timeout window, yields true for
the first call and false for every other. -/
theorem commandLock_mutualExclusion (locks : LockTable) (guildId : String) (now : Nat) :
    (∀ b1 b2, (hasCommandLock locks guildId b1 now).1 = true →
        (hasCommandLock locks guildId b2 now).1 = true → b1 = b2)
    ∧ (∀ (b1 : String) (t1 : Nat) (rest : List (String × Nat)),
        (∀ e, locks guildId = some e → t1 - e.timestamp > LOCK_TIMEOUT) →
        List.Pairwise (fun p q : String × Nat => p.1 ≠ q.1) ((b1, t1) :: rest) →
        (∀ p ∈ rest, (p : String × Nat).2 ≤ t1 + LOCK_TIMEOUT) →
        (runAcquires locks guildId ((b1, t1) :: rest)).1
          = true :: (rest.map fun _ => false)) := by
  constructor
  · intro b1 b2 h1 h2
    rcases he : locks guildId with _ | e
    · simp [hasCommandLock, he] at h1
    · by_cases hexp : now - e.timestamp > LOCK_TIMEOUT
      · simp [hasCommandLock, he, hexp] at h1
      · simp only [hasCommandLock, he, hexp, if_neg, ite_false] at h1 h2
        simp only [decide_eq_true_eq] at h1 h2
        rw [← h1, ← h2]
  · intro b1 t1 rest hinit hdist hwin
    have hfirst : acquireCommandLock locks guildId b1 t1
        = (true, (fun k => if k = guildId then some ⟨b1, t1⟩ else locks k)) := by
      rcases he : locks guildId with _ | e
      · simp only [acquireCommandLock, he]
        rfl
      · have hexp := hinit e he
        simp only [acquireCommandLock, he, hexp, if_pos]
        refine congrArg (Prod.mk true) ?_
        funext k
        by_cases hk : k = guildId <;> simp [LockTable.set, LockTable.del, hk]
    have hne : ∀ p ∈ rest, (p : String × Nat).1 ≠ b1 := by
      intro p hp
      have := (List.pairwise_cons.mp hdist).1 p hp
      exact fun h => this h.symm
    have htail := runAcquires_allFalse guildId b1 t1 rest
      (fun k => if k = guildId then some ⟨b1, t1⟩ else locks k) (by simp) hne hwin
    simp [runAcquires, hfirst, htail]

/-- Counterexample to C1 as stated: from a lock-table state holding a live
lock owned by a bot outside the acquiring group, two acquire calls with
distinct peer ids inside the timeout window both return false — not
"exactly one returns true". -/
theorem commandLock_mutualExclusion_counterexample :
    (runAcquires (LockTable.empty.set "guild1" ⟨"Z", 0⟩) "guild1"
        [("A", 1), ("B", 2)]).1 = [false, false]
    ∧ ((1 : Nat) - 0 ≤ LOCK_TIMEOUT ∧ (2 : Nat) - 0 ≤ LOCK_TIMEOUT) := by
  decide

/-- Witness for C1: three distinct bots acquiring inside one window on a
fresh key — only the first succeeds. -/
theorem commandLock_mutualExclusion_witness :
    (runAcquires LockTable.empty "guild1" [("A", 0), ("B", 1), ("C", 9999)]).1
      = [true, false, false] := by
  have h := (commandLock_mutualExclusion LockTable.empty "guild1" 0).2
    "A" 0 [("B", 1), ("C", 9999)]
    (by intro e he; simp [LockTable.empty] at he)
    (by decide)
    (by decide)
  simpa using h

/-! ### Assignment-store theorems -/

/-- The per-row sweep is idempotent. -/
theorem sweepRow_idem (now threshold : Nat) (a : Assignment) :
    sweepRow now threshold (sweepRow now threshold a) = sweepRow now threshold a := by
  unfold sweepRow
  by_cases h : a.isActive = true ∧ a.lastActivity < now - threshold
  · simp [h]
  · simp [h]

/-- C8: `releaseInactiveAssignments` deletes no row, flips `isActive` to
false on exactly the rows that are active with `lastActivity` older than
`now - threshold`, changes no other field of any row, and is idempotent. -/
theorem releaseInactiveAssignments_sweep (store : AssignmentStore) (now threshold : Nat) :
    (releaseInactiveAssignments store now threshold).length = store.length
    ∧ (∀ (i : Nat) (a : Assignment), store[i]? = some a →
        (a.isActive = true ∧ a.lastActivity < now - threshold →
          (releaseInactiveAssignments store now threshold)[i]?
            = some { a with isActive := false })
        ∧ (¬(a.isActive = true ∧ a.lastActivity < now - threshold) →
          (releaseInactiveAssignments store now threshold)[i]? = some a))
    ∧ releaseInactiveAssignments (releaseInactiveAssignments store now threshold) now threshold
        = releaseInactiveAssignments store now threshold := by
  refine ⟨by simp [releaseInactiveAssignments], fun i a ha => ⟨fun hcond => ?_, fun hcond => ?_⟩, ?_⟩
  · simp [releaseInactiveAssignments, List.getElem?_map, ha, sweepRow, hcond]
  · simp [releaseInactiveAssignments, List.getElem?_map, ha, sweepRow, hcond]
  · simp only [releaseInactiveAssignments, List.map_map]
    refine List.map_congr_left ?_
    intro a _
    exact sweepRow_idem now threshold a

/-- Witness for C8: the sweep applied to a two-row store: a stale active
row is deactivated, a fresh active row survives, and the sweep is
idempotent there. -/
theorem releaseInactiveAssignments_sweep_witness :
    (releaseInactiveAssignments
        [newAssignment "g1" "bot-1" "c1" AssignmentReason.auto 0,
         { newAssignment "g2" "bot-2" "c2" AssignmentReason.auto 0 with
             isActive := true, lastActivity := 100 }] 1000000 300000)[1]?
      = some { newAssignment "g2" "bot-2" "c2" AssignmentReason.auto 0 with
                 isActive := false, lastActivity := 100 }
    ∧ releaseInactiveAssignments
        (releaseInactiveAssignments
          [newAssignment "g1" "bot-1" "c1" AssignmentReason.auto 0,
           { newAssignment "g2" "bot-2" "c2" AssignmentReason.auto 0 with
               isActive := true, lastActivity := 100 }] 1000000 300000) 1000000 300000
      = releaseInactiveAssignments
          [newAssignment "g1" "bot-1" "c1" AssignmentReason.auto 0,
           { newAssignment "g2" "bot-2" "c2" AssignmentReason.auto 0 with
               isActive := true, lastActivity := 100 }] 1000000 300000 := by
  have h := releaseInactiveAssignments_sweep
    [newAssignment "g1" "bot-1" "c1" AssignmentReason.auto 0,
     { newAssignment "g2" "bot-2" "c2" AssignmentReason.auto 0 with
         isActive := true, lastActivity := 100 }] 1000000 300000
  refine ⟨?_, h.2.2⟩
  have hrow := (h.2.1 1 ({ newAssignment "g2" "bot-2" "c2" AssignmentReason.auto 0 with
      isActive := true, lastActivity := 100 }) (by decide)).1 (by decide)
  exact hrow

/-! ### Load-balancer theorems: assignment -/

/-- C5: sticky routing — with an active assignment whose bot is in the
cluster and ready, `assignBot` touches the row's `lastActivity` and
returns that bot's ownership without running the selection step. -/
theorem assignBot_sticky (cluster : BotCluster) (strategy : Strategy)
    (maxPlayersPerBot : Nat) (store : AssignmentStore) (guildId : String) (now : Nat)
    (a : Assignment) (client : BotClient)
    (hfind : findById store guildId = some a)
    (hactive : a.isActive = true)
    (hclient : assocGet cluster a.assignedBotId = some client)
    (hready : client.ready = true) :
    assignBot cluster strategy maxPlayersPerBot store guildId now =
      { result := some
          { botId := a.assignedBotId
            client := client
            assignment := { a with lastActivity := now } }
        store := touchById store guildId now
        selectorInvoked := false } := by
  simp [assignBot, hfind, hactive, hclient, hready]

/-- Witness for C5: sticky routing on a concrete one-row store and
one-bot cluster. -/
theorem assignBot_sticky_witness :
    assignBot
        [("bot-1", ⟨"bot-1", "c1", true, true, 0, some ⟨[]⟩⟩)]
        Strategy.priority 100
        [{ newAssignment "g1" "bot-1" "c1" AssignmentReason.auto 0 with isActive := true }]
        "g1" 777 =
      { result := some
          { botId := "bot-1"
            client := ⟨"bot-1", "c1", true, true, 0, some ⟨[]⟩⟩
            assignment := { newAssignment "g1" "bot-1" "c1" AssignmentReason.auto 0 with
                              isActive := true, lastActivity := 777 } }
        store := [{ newAssignment "g1" "bot-1" "c1" AssignmentReason.auto 0 with
                      isActive := true, lastActivity := 777 }]
        selectorInvoked := false } := by
  have h := assignBot_sticky
    [("bot-1", ⟨"bot-1", "c1", true, true, 0, some ⟨[]⟩⟩)]
    Strategy.priority 100
    [{ newAssignment "g1" "bot-1" "c1" AssignmentReason.auto 0 with isActive := true }]
    "g1" 777
    ({ newAssignment "g1" "bot-1" "c1" AssignmentReason.auto 0 with isActive := true })
    (⟨"bot-1", "c1", true, true, 0, some ⟨[]⟩⟩)
    (by decide) (by decide) (by decide) (by decide)
  rw [h]
  decide

/-- C10: when the stored assignment for the guild is unusable (inactive, or
its bot absent or not ready) and the selector picks a different bot,
`assignBot` returns the selected bot's id while the returned (and stored)
assignment row still names the old bot — the durable record is not
rewritten on this path. -/
theorem assignBot_staleRecordMismatch (cluster : BotCluster) (strategy : Strategy)
    (maxPlayersPerBot : Nat) (store : AssignmentStore) (guildId : String) (now : Nat)
    (a : Assignment) (selId : String) (selClient : BotClient)
    (hfind : findById store guildId = some a)
    (hstale : a.isActive = false
      ∨ (∀ c, assocGet cluster a.assignedBotId = some c → c.ready = false))
    (hsel : selectBot strategy cluster maxPlayersPerBot = some (selId, selClient))
    (hdiff : selId ≠ a.assignedBotId) :
    assignBot cluster strategy maxPlayersPerBot store guildId now =
      { result := some { botId := selId, client := selClient, assignment := a }
        store := store
        selectorInvoked := true }
    ∧ a.assignedBotId ≠ selId := by
  have hgoc : getOrCreateAssignment store guildId selId selClient.clientId
      AssignmentReason.failover now = (a, store) := by
    simp [getOrCreateAssignment, hfind]
  constructor
  · rcases hstale with hinactive | hnotready
    · simp [assignBot, hfind, hinactive, hsel, hgoc]
    · rcases hc : assocGet cluster a.assignedBotId with _ | c
      · simp [assignBot, hfind, hc, hsel, hgoc]
      · have := hnotready c hc
        simp [assignBot, hfind, hc, this, hsel, hgoc]
  · exact fun h => hdiff h.symm

/-- Witness for C10: a store whose row names the absent bot `bot-9`,
while the selector picks the ready main bot `bot-1`. -/
theorem assignBot_staleRecordMismatch_witness :
    assignBot [("bot-1", ⟨"bot-1", "c1", true, true, 0, some ⟨[]⟩⟩)]
        Strategy.priority 100
        [newAssignment "g1" "bot-9" "c9" AssignmentReason.auto 0]
        "g1" 777 =
      { result := some
          { botId := "bot-1"
            client := ⟨"bot-1", "c1", true, true, 0, some ⟨[]⟩⟩
            assignment := newAssignment "g1" "bot-9" "c9" AssignmentReason.auto 0 }
        store := [newAssignment "g1" "bot-9" "c9" AssignmentReason.auto 0]
        selectorInvoked := true }
    ∧ (newAssignment "g1" "bot-9" "c9" AssignmentReason.auto 0).assignedBotId ≠ "bot-1" := by
  exact assignBot_staleRecordMismatch
    [("bot-1", ⟨"bot-1", "c1", true, true, 0, some ⟨[]⟩⟩)]
    Strategy.priority 100
    [newAssignment "g1" "bot-9" "c9" AssignmentReason.auto 0]
    "g1" 777
    (newAssignment "g1" "bot-9" "c9" AssignmentReason.auto 0)
    "bot-1" (⟨"bot-1", "c1", true, true, 0, some ⟨[]⟩⟩)
    (by decide) (Or.inl (by decide)) (by decide) (by decide)

/-! ### Load-balancer theorems: heartbeat status -/

/-- C6 (amended): the status persisted by `_updateBotStatus` is: Offline
when the client is not ready; InUse when ready at or above capacity; InUse
also for any ready client with a nonzero player count; Available only for
a ready client with zero players (and positive capacity). -/
theorem updateBotStatus_characterization (client : BotClient) (maxPlayersPerBot : Nat) :
    (client.ready = false →
      (updateBotStatus client maxPlayersPerBot).2 = BotStatusKind.Offline)
    ∧ (client.ready = true → livePlayers client ≥ maxPlayersPerBot →
      (updateBotStatus client maxPlayersPerBot).2 = BotStatusKind.InUse)
    ∧ (client.ready = true → 0 < livePlayers client →
      (updateBotStatus client maxPlayersPerBot).2 = BotStatusKind.InUse)
    ∧ (client.ready = true → livePlayers client = 0 → 0 < maxPlayersPerBot →
      (updateBotStatus client maxPlayersPerBot).2 = BotStatusKind.Available) := by
  refine ⟨fun hr => ?_, fun hr hge => ?_, fun hr hpos => ?_, fun hr hzero hmax => ?_⟩
  · simp [updateBotStatus, hr]
  · simp [updateBotStatus, hr, hge]
  · by_cases hge : livePlayers client ≥ maxPlayersPerBot
    · simp [updateBotStatus, hr, hge]
    · simp [updateBotStatus, hr, hge, hpos]
  · have hlt : ¬ (livePlayers client ≥ maxPlayersPerBot) := by omega
    simp [updateBotStatus, hr, hzero, hlt]
    omega

/-- Counterexample to C6 as stated: a ready bot with one player and
capacity 100 (player count strictly between 0 and capacity) is persisted
as InUse, not Available. -/
theorem updateBotStatus_counterexample :
    (⟨"bot-1", "c1", true, true, 0,
        some ⟨[("g1", ⟨some "vc1"⟩)]⟩⟩ : BotClient).ready = true
    ∧ 0 < livePlayers ⟨"bot-1", "c1", true, true, 0, some ⟨[("g1", ⟨some "vc1"⟩)]⟩⟩
    ∧ livePlayers ⟨"bot-1", "c1", true, true, 0, some ⟨[("g1", ⟨some "vc1"⟩)]⟩⟩ < 100
    ∧ (updateBotStatus ⟨"bot-1", "c1", true, true, 0,
        some ⟨[("g1", ⟨some "vc1"⟩)]⟩⟩ 100).2 = BotStatusKind.InUse
    ∧ (updateBotStatus ⟨"bot-1", "c1", true, true, 0,
        some ⟨[("g1", ⟨some "vc1"⟩)]⟩⟩ 100).2 ≠ BotStatusKind.Available := by
  decide

/-- Witness for C6: the characterization applied to an offline bot, a
saturated bot, a one-player bot, and an idle bot. -/
theorem updateBotStatus_characterization_witness :
    (updateBotStatus ⟨"b", "c", false, false, 0, none⟩ 100).2 = BotStatusKind.Offline
    ∧ (updateBotStatus ⟨"b", "c", false, true, 0,
        some ⟨[("g1", ⟨none⟩), ("g2", ⟨none⟩)]⟩⟩ 2).2 = BotStatusKind.InUse
    ∧ (updateBotStatus ⟨"b", "c", false, true, 0,
        some ⟨[("g1", ⟨none⟩)]⟩⟩ 100).2 = BotStatusKind.InUse
    ∧ (updateBotStatus ⟨"b", "c", false, true, 0, some ⟨[]⟩⟩ 100).2
        = BotStatusKind.Available := by
  refine ⟨(updateBotStatus_characterization ⟨"b", "c", false, false, 0, none⟩ 100).1 rfl,
    (updateBotStatus_characterization _ 2).2.1 rfl (by decide),
    (updateBotStatus_characterization _ 100).2.2.1 rfl (by decide),
    (updateBotStatus_characterization _ 100).2.2.2 rfl (by decide) (by decide)⟩

/-! ### Load-balancer theorems: priority selection -/

/-- The priority comparator is reflexive. -/
theorem priorityCmpLe_refl (a : String × BotClient) : priorityCmpLe a a = true := by
  cases hm : a.2.isMainBot <;> simp [priorityCmpLe, hm]

/-- The priority comparator is total. -/
theorem priorityCmpLe_total (a b : String × BotClient) :
    priorityCmpLe a b = true ∨ priorityCmpLe b a = true := by
  cases hma : a.2.isMainBot <;> cases hmb : b.2.isMainBot <;>
    simp [priorityCmpLe, hma, hmb] <;> omega

/-- The priority comparator is transitive. -/
theorem priorityCmpLe_trans (a b c : String × BotClient) :
    priorityCmpLe a b = true → priorityCmpLe b c = true → priorityCmpLe a c = true := by
  cases hma : a.2.isMainBot <;> cases hmb : b.2.isMainBot <;> cases hmc : c.2.isMainBot <;>
    simp [priorityCmpLe, hma, hmb, hmc] <;> omega

/-- Anything priority-below a main bot is itself a main bot. -/
theorem priorityCmpLe_main (p y : String × BotClient) (h : priorityCmpLe p y = true)
    (hy : y.2.isMainBot = true) : p.2.isMainBot = true := by
  by_contra hp
  have hp' : p.2.isMainBot = false := by
    cases hm : p.2.isMainBot
    · rfl
    · exact absurd hm hp
  simp [priorityCmpLe, hp', hy] at h

/-- In a sorted list, the first element satisfying a predicate is below
every element of the list satisfying the predicate. -/
theorem find?_min_of_sorted {α : Type} (r : α → α → Prop) (p : α → Bool)
    (hrefl : ∀ a, r a a) :
    ∀ (l : List α), List.Sorted r l → ∀ x, l.find? p = some x →
      ∀ y ∈ l, p y = true → r x y := by
  intro l
  induction l with
  | nil => intro _ x hx; simp at hx
  | cons a as ih =>
    intro hsorted x hx y hy hpy
    by_cases hpa : p a = true
    · rw [List.find?_cons_of_pos _ hpa] at hx
      injection hx with hx
      subst hx
      rcases List.mem_cons.mp hy with rfl | hy'
      · exact hrefl _
      · exact List.rel_of_sorted_cons hsorted y hy'
    · rw [List.find?_cons_of_neg _ (by simpa using hpa)] at hx
      rcases List.mem_cons.mp hy with rfl | hy'
      · exact absurd hpy hpa
      · exact ih hsorted.of_cons x hx y hy' hpy

/-- C4 (amended): with the priority strategy and at least one ready peer,
`_selectByPriority` never returns null; when every ready peer is at or
above live capacity it returns a ready peer that is minimal in the
priority order (main-first, then ascending cached load) — in particular
the main bot whenever a ready main bot exists — rather than the
least-loaded peer; when some ready peer is under capacity it returns a
ready peer under capacity that is priority-minimal among those. -/
theorem selectByPriority_capacity (cluster : BotCluster) (maxPlayersPerBot : Nat)
    (x : String × BotClient) (hx : x ∈ cluster) (hxready : x.2.ready = true) :
    ∃ p, selectByPriority cluster maxPlayersPerBot = some p
      ∧ p ∈ cluster ∧ p.2.ready = true
      ∧ ((∀ y ∈ cluster, y.2.ready = true → livePlayers y.2 ≥ maxPlayersPerBot) →
          (∀ y ∈ cluster, y.2.ready = true → priorityCmpLe p y = true)
          ∧ (∀ y ∈ cluster, y.2.ready = true → y.2.isMainBot = true →
              p.2.isMainBot = true))
      ∧ ((∃ y, y ∈ cluster ∧ y.2.ready = true ∧ livePlayers y.2 < maxPlayersPerBot) →
          livePlayers p.2 < maxPlayersPerBot
          ∧ ∀ y ∈ cluster, y.2.ready = true → livePlayers y.2 < maxPlayersPerBot →
              priorityCmpLe p y = true) := by
  have htotal : IsTotal (String × BotClient) (fun a b => priorityCmpLe a b = true) :=
    ⟨priorityCmpLe_total⟩
  have htrans : IsTrans (String × BotClient) (fun a b => priorityCmpLe a b = true) :=
    ⟨priorityCmpLe_trans⟩
  have hsorted : List.Sorted (fun a b => priorityCmpLe a b = true)
      (List.insertionSort (fun a b => priorityCmpLe a b = true)
        (cluster.filter fun q => q.2.ready)) :=
    @List.sorted_insertionSort _ _ _ htotal htrans _
  have hperm : (List.insertionSort (fun a b => priorityCmpLe a b = true)
      (cluster.filter fun q => q.2.ready)).Perm (cluster.filter fun q => q.2.ready) :=
    List.perm_insertionSort _ _
  have hmem : ∀ y : String × BotClient,
      y ∈ List.insertionSort (fun a b => priorityCmpLe a b = true)
          (cluster.filter fun q => q.2.ready)
        ↔ (y ∈ cluster ∧ y.2.ready = true) := by
    intro y
    rw [hperm.mem_iff, List.mem_filter]
  have hxmem : x ∈ List.insertionSort (fun a b => priorityCmpLe a b = true)
      (cluster.filter fun q => q.2.ready) := (hmem x).mpr ⟨hx, hxready⟩
  rcases hfind : (List.insertionSort (fun a b => priorityCmpLe a b = true)
      (cluster.filter fun q => q.2.ready)).find?
        (fun q => decide (livePlayers q.2 < maxPlayersPerBot)) with _ | hit
  · rcases hl : List.insertionSort (fun a b => priorityCmpLe a b = true)
        (cluster.filter fun q => q.2.ready) with _ | ⟨p, tail⟩
    · rw [hl] at hxmem
      simp at hxmem
    · have hpmem : p ∈ List.insertionSort (fun a b => priorityCmpLe a b = true)
          (cluster.filter fun q => q.2.ready) := by
        rw [hl]; exact List.mem_cons_self p tail
      have hpcluster := (hmem p).mp hpmem
      have hminimal : ∀ y ∈ cluster, y.2.ready = true → priorityCmpLe p y = true := by
        intro y hy hyr
        have hym : y ∈ p :: tail := by rw [← hl]; exact (hmem y).mpr ⟨hy, hyr⟩
        rcases List.mem_cons.mp hym with rfl | hy'
        · exact priorityCmpLe_refl _
        · have hs : List.Sorted (fun a b => priorityCmpLe a b = true) (p :: tail) := by
            rw [← hl]; exact hsorted
          exact List.rel_of_sorted_cons hs y hy'
      refine ⟨p, ?_, hpcluster.1, hpcluster.2, ?_, ?_⟩
      · have hfind' : List.find? (fun q => decide (livePlayers q.2 < maxPlayersPerBot))
            (p :: tail) = none := by rw [← hl]; exact hfind
        simp [selectByPriority, hl, hfind']
      · intro _
        exact ⟨hminimal, fun y hy hyr hym =>
          priorityCmpLe_main p y (hminimal y hy hyr) hym⟩
      · intro hex
        exfalso
        rcases hex with ⟨y, hy, hyr, hylt⟩
        have hym : y ∈ List.insertionSort (fun a b => priorityCmpLe a b = true)
            (cluster.filter fun q => q.2.ready) := (hmem y).mpr ⟨hy, hyr⟩
        have hnone := List.find?_eq_none.mp hfind y hym
        simp at hnone
        omega
  · have hhitmem : hit ∈ List.insertionSort (fun a b => priorityCmpLe a b = true)
        (cluster.filter fun q => q.2.ready) := List.mem_of_find?_eq_some hfind
    have hhitp := List.find?_some hfind
    have hhitlt : livePlayers hit.2 < maxPlayersPerBot := by simpa using hhitp
    have hhitcluster := (hmem hit).mp hhitmem
    refine ⟨hit, ?_, hhitcluster.1, hhitcluster.2, ?_, ?_⟩
    · simp [selectByPriority, hfind]
    · intro hall
      have := hall hit hhitcluster.1 hhitcluster.2
      omega
    · intro _
      refine ⟨hhitlt, ?_⟩
      intro y hy hyr hylt
      exact find?_min_of_sorted (fun a b => priorityCmpLe a b = true) _
        priorityCmpLe_refl _ hsorted hit hfind y ((hmem y).mpr ⟨hy, hyr⟩)
        (by simpa using hylt)

set_option maxRecDepth 4000 in
/-- Counterexample to C4 as stated: every ready bot is at or above
capacity 100, yet `_selectByPriority` returns the main bot with 150 live
players instead of the least-loaded ready bot, which has only 100. -/
theorem selectByPriority_capacity_counterexample :
    (∀ y ∈ ([("bot-1", ⟨"bot-1", "c1", true, true, 150,
            some ⟨List.replicate 150 ("gx", ⟨none⟩)⟩⟩),
          ("bot-2", ⟨"bot-2", "c2", false, true, 100,
            some ⟨List.replicate 100 ("gx", ⟨none⟩)⟩⟩)] : BotCluster),
        y.2.ready = true → livePlayers y.2 ≥ 100)
    ∧ selectByPriority
        [("bot-1", ⟨"bot-1", "c1", true, true, 150,
            some ⟨List.replicate 150 ("gx", ⟨none⟩)⟩⟩),
         ("bot-2", ⟨"bot-2", "c2", false, true, 100,
            some ⟨List.replicate 100 ("gx", ⟨none⟩)⟩⟩)] 100
      = some ("bot-1", ⟨"bot-1", "c1", true, true, 150,
          some ⟨List.replicate 150 ("gx", ⟨none⟩)⟩⟩)
    ∧ livePlayers (⟨"bot-2", "c2", false, true, 100,
          some ⟨List.replicate 100 ("gx", ⟨none⟩)⟩⟩ : BotClient)
        < livePlayers (⟨"bot-1", "c1", true, true, 150,
          some ⟨List.replicate 150 ("gx", ⟨none⟩)⟩⟩ : BotClient)
    ∧ (⟨"bot-2", "c2", false, true, 100,
          some ⟨List.replicate 100 ("gx", ⟨none⟩)⟩⟩ : BotClient).ready = true := by
  refine ⟨by decide, by decide, by decide, by decide⟩

/-- Witness for C4 (amended): the characterization applied to a concrete
two-bot cluster. -/
theorem selectByPriority_capacity_witness :
    (selectByPriority
        [("bot-1", ⟨"bot-1", "c1", true, true, 0, some ⟨[]⟩⟩),
         ("bot-2", ⟨"bot-2", "c2", false, true, 0, some ⟨[]⟩⟩)] 100).isSome = true := by
  obtain ⟨p, hp, -⟩ := selectByPriority_capacity
    [("bot-1", ⟨"bot-1", "c1", true, true, 0, some ⟨[]⟩⟩),
     ("bot-2", ⟨"bot-2", "c2", false, true, 0, some ⟨[]⟩⟩)] 100
    ("bot-1", ⟨"bot-1", "c1", true, true, 0, some ⟨[]⟩⟩)
    (by decide) (by decide)
  rw [hp]
  rfl

/-! ### Router theorems -/

/-- C9: the main bot's routing decision is independent of the lock table —
for any two lock-table states the returned boolean is the same — and
whenever the main bot reaches its final step (it is not busy in a voice
channel away from the requester, and no active assignment names another
bot) it returns true for every lock-table state, including states in
which its own lock acquisition would fail. -/
theorem mainBot_lockIndependent (bots : BotCluster) (store : AssignmentStore)
    (client : BotClient) (guildId : String) (isMusicCommand : Bool)
    (userVoiceChannelId : Option String) (now : Nat)
    (hmain : client.isMainBot = true) :
    (∀ locks1 locks2 : LockTable,
      (shouldHandleCommand bots store locks1 client guildId isMusicCommand
          userVoiceChannelId now).1
        = (shouldHandleCommand bots store locks2 client guildId isMusicCommand
          userVoiceChannelId now).1)
    ∧ ((∀ u v, userVoiceChannelId = some u → playerChannel client guildId = some v →
          v = u) →
       (∀ a, findById store guildId = some a → a.isActive = true →
          a.assignedBotId = client.botId) →
       ∀ locks : LockTable,
         (shouldHandleCommand bots store locks client guildId isMusicCommand
             userVoiceChannelId now).1 = true) := by
  constructor
  · intro locks1 locks2
    simp only [shouldHandleCommand, hmain, if_true, mainShouldHandle]
    simp [apply_ite Prod.fst]
  · intro hbusy hassign locks
    simp only [shouldHandleCommand, hmain, if_true, mainShouldHandle]
    rcases hu : userVoiceChannelId with _ | u
    · rcases hf : findById store guildId with _ | a
      · cases hm : isMusicCommand <;> simp [hu, hf, hm]
      · rcases hact : a.isActive with _ | _
        · cases hm : isMusicCommand <;> simp [hu, hf, hm, hact]
        · have ha := hassign a hf hact
          cases hm : isMusicCommand <;> simp [hu, hf, hm, hact, ha]
    · rcases hp : playerChannel client guildId with _ | v
      · rcases hf : findById store guildId with _ | a
        · cases hm : isMusicCommand <;> simp [hu, hp, hf, hm]
        · rcases hact : a.isActive with _ | _
          · cases hm : isMusicCommand <;> simp [hu, hp, hf, hm, hact]
          · have ha := hassign a hf hact
            cases hm : isMusicCommand <;> simp [hu, hp, hf, hm, hact, ha]
      · have hv := hbusy u v hu hp
        rcases hf : findById store guildId with _ | a
        · cases hm : isMusicCommand <;> simp [hu, hp, hf, hm, hv]
        · rcases hact : a.isActive with _ | _
          · cases hm : isMusicCommand <;> simp [hu, hp, hf, hm, hact, hv]
          · have ha := hassign a hf hact
            cases hm : isMusicCommand <;> simp [hu, hp, hf, hm, hact, ha, hv]

/-- Witness for C9: a main bot with no player and no assignment returns
true both on an empty lock table and on a table where another bot holds a
live lock (where its own acquisition would fail). -/
theorem mainBot_lockIndependent_witness :
    (shouldHandleCommand [] [] (LockTable.empty.set "g1" ⟨"bot-2", 0⟩)
        ⟨"bot-1", "c1", true, true, 0, some ⟨[]⟩⟩ "g1" true (some "vc1") 100).1 = true
    ∧ (acquireCommandLock (LockTable.empty.set "g1" ⟨"bot-2", 0⟩) "g1" "bot-1" 100).1
        = false
    ∧ (shouldHandleCommand [] [] LockTable.empty
        ⟨"bot-1", "c1", true, true, 0, some ⟨[]⟩⟩ "g1" true (some "vc1") 100).1
      = (shouldHandleCommand [] [] (LockTable.empty.set "g1" ⟨"bot-2", 0⟩)
        ⟨"bot-1", "c1", true, true, 0, some ⟨[]⟩⟩ "g1" true (some "vc1") 100).1 := by
  have h := mainBot_lockIndependent [] [] ⟨"bot-1", "c1", true, true, 0, some ⟨[]⟩⟩
    "g1" true (some "vc1") 100 rfl
  refine ⟨h.2 ?_ ?_ _, by decide, h.1 _ _⟩
  · intro u v _ hv
    simp [playerChannel, getPlayer, assocGet] at hv
  · intro a ha _
    simp [findById] at ha

/-- `acquireCommandLock` succeeds whenever the key's entry (if any) is
owned by the caller or already expired. -/
theorem acquireCommandLock_fst_true (locks : LockTable) (guildId botId : String)
    (now : Nat)
    (h : ∀ e, locks guildId = some e →
        e.botId = botId ∨ now - e.timestamp > LOCK_TIMEOUT) :
    (acquireCommandLock locks guildId botId now).1 = true := by
  rcases he : locks guildId with _ | e
  · simp [acquireCommandLock, he]
  · by_cases hexp : now - e.timestamp > LOCK_TIMEOUT
    · simp [acquireCommandLock, he, hexp]
    · have hown : e.botId = botId := by
        rcases h e he with h1 | h2
        · exact h1
        · exact absurd h2 hexp
      simp [acquireCommandLock, he, hexp, hown]

/-- The failover lock probe passes whenever the key's entry (if any) is
owned by the caller or expired, and afterwards the key's entry (if any)
still satisfies the same condition. -/
theorem lockProbe_pass (locks : LockTable) (guildId botId : String) (now : Nat)
    (h : ∀ e, locks guildId = some e →
        e.botId = botId ∨ now - e.timestamp > LOCK_TIMEOUT) :
    (lockProbe locks guildId botId now).1 = true
    ∧ ∀ e, (lockProbe locks guildId botId now).2 guildId = some e →
        e.botId = botId ∨ now - e.timestamp > LOCK_TIMEOUT := by
  rcases he : locks guildId with _ | e
  · constructor
    · simp [lockProbe, hasCommandLock, he, acquireCommandLock, releaseCommandLock,
        LockTable.set, LockTable.del]
    · intro e' he'
      simp [lockProbe, hasCommandLock, he, acquireCommandLock, releaseCommandLock,
        LockTable.set, LockTable.del] at he'
  · by_cases hexp : now - e.timestamp > LOCK_TIMEOUT
    · constructor
      · simp [lockProbe, hasCommandLock, he, hexp, acquireCommandLock, releaseCommandLock,
          LockTable.set, LockTable.del]
      · intro e' he'
        simp [lockProbe, hasCommandLock, he, hexp, acquireCommandLock, releaseCommandLock,
          LockTable.set, LockTable.del] at he'
    · have hown : e.botId = botId := by
        rcases h e he with h1 | h2
        · exact h1
        · exact absurd h2 hexp
      have hprobe : lockProbe locks guildId botId now = (true, locks) := by
        simp [lockProbe, hasCommandLock, he, hexp, hown]
      rw [hprobe]
      exact ⟨rfl, h⟩

/-- C3: failover determinism — when a non-main bot evaluating a music
command reaches the takeover step (it has no usable player for the key,
no active assignment names it, the key's lock entry is its own or
expired, and the main bot has a player in a channel different from the
requester's), it handles the command exactly when it is the first
available failover bot in ascending bot-id order; otherwise it defers.
Under these hypotheses its final lock acquisition always succeeds. -/
theorem failover_firstAvailable (bots : BotCluster) (store : AssignmentStore)
    (locks : LockTable) (client : BotClient) (guildId u : String) (now : Nat)
    (mainBotClient : BotClient) (mgr : LavalinkMgr) (mainVC : String)
    (hmain : client.isMainBot = false)
    (hplayer : playerChannel client guildId = none)
    (hassign : ∀ a, findById store guildId = some a → a.isActive = true →
        a.assignedBotId ≠ client.botId)
    (hlock : ∀ e, locks guildId = some e →
        e.botId = client.botId ∨ now - e.timestamp > LOCK_TIMEOUT)
    (hmb : findMainBot bots = some mainBotClient)
    (hlava : mainBotClient.lavalink = some mgr)
    (hbusy : (assocGet mgr.players guildId).bind (fun p => p.voiceChannelId)
        = some mainVC)
    (hdiff : mainVC ≠ u) :
    (shouldHandleCommand bots store locks client guildId true (some u) now).1 = true
      ↔ ∃ failover, firstAvailableFailover bots guildId u = some failover
          ∧ failover.2.botId = client.botId := by
  obtain ⟨hpass, hlock3⟩ := lockProbe_pass locks guildId client.botId now hlock
  have hacq := acquireCommandLock_fst_true ((lockProbe locks guildId client.botId now).2)
    guildId client.botId now hlock3
  have hnotmain : ¬ (client.isMainBot = true) := by simp [hmain]
  have hassignedHere : (match findById store guildId with
      | some assignment =>
          assignment.isActive && decide (assignment.assignedBotId = client.botId)
      | none => false) = false := by
    rcases hf : findById store guildId with _ | a
    · rfl
    · rcases hact : a.isActive with _ | _
      · simp [hact]
      · simp [hact, hassign a hf hact]
  simp only [shouldHandleCommand, hnotmain, if_false, failoverShouldHandle,
    Bool.false_eq_true, hpass, hplayer, hassignedHere, hmb, hlava, hbusy, hdiff,
    Option.bind_eq_bind]
  rcases hfa : firstAvailableFailover bots guildId u with _ | failover
  · simp [hfa]
  · by_cases hbid : failover.2.botId = client.botId
    · simp [hfa, hbid, hacq]
    · simp [hfa, hbid]

/-- Witness for C3: main bot busy in channel C1, requester in C2, idle
failover bots bot-2 and bot-3 — bot-2 handles, bot-3 defers, in either
evaluation order. -/
theorem failover_firstAvailable_witness :
    (shouldHandleCommand
        [("bot-1", ⟨"bot-1", "c1", true, true, 1, some ⟨[("g1", ⟨some "C1"⟩)]⟩⟩),
         ("bot-2", ⟨"bot-2", "c2", false, true, 0, some ⟨[]⟩⟩),
         ("bot-3", ⟨"bot-3", "c3", false, true, 0, some ⟨[]⟩⟩)]
        [] LockTable.empty
        ⟨"bot-2", "c2", false, true, 0, some ⟨[]⟩⟩ "g1" true (some "C2") 0).1 = true
    ∧ (shouldHandleCommand
        [("bot-1", ⟨"bot-1", "c1", true, true, 1, some ⟨[("g1", ⟨some "C1"⟩)]⟩⟩),
         ("bot-2", ⟨"bot-2", "c2", false, true, 0, some ⟨[]⟩⟩),
         ("bot-3", ⟨"bot-3", "c3", false, true, 0, some ⟨[]⟩⟩)]
        [] LockTable.empty
        ⟨"bot-3", "c3", false, true, 0, some ⟨[]⟩⟩ "g1" true (some "C2") 0).1 = false
    ∧ (shouldHandleCommand
        [("bot-1", ⟨"bot-1", "c1", true, true, 1, some ⟨[("g1", ⟨some "C1"⟩)]⟩⟩),
         ("bot-2", ⟨"bot-2", "c2", false, true, 0, some ⟨[]⟩⟩),
         ("bot-3", ⟨"bot-3", "c3", false, true, 0, some ⟨[]⟩⟩)]
        [] (shouldHandleCommand
            [("bot-1", ⟨"bot-1", "c1", true, true, 1, some ⟨[("g1", ⟨some "C1"⟩)]⟩⟩),
             ("bot-2", ⟨"bot-2", "c2", false, true, 0, some ⟨[]⟩⟩),
             ("bot-3", ⟨"bot-3", "c3", false, true, 0, some ⟨[]⟩⟩)]
            [] LockTable.empty
            ⟨"bot-2", "c2", false, true, 0, some ⟨[]⟩⟩ "g1" true (some "C2") 0).2
        ⟨"bot-3", "c3", false, true, 0, some ⟨[]⟩⟩ "g1" true (some "C2") 0).1 = false
    ∧ (shouldHandleCommand
        [("bot-1", ⟨"bot-1", "c1", true, true, 1, some ⟨[("g1", ⟨some "C1"⟩)]⟩⟩),
         ("bot-2", ⟨"bot-2", "c2", false, true, 0, some ⟨[]⟩⟩),
         ("bot-3", ⟨"bot-3", "c3", false, true, 0, some ⟨[]⟩⟩)]
        [] (shouldHandleCommand
            [("bot-1", ⟨"bot-1", "c1", true, true, 1, some ⟨[("g1", ⟨some "C1"⟩)]⟩⟩),
             ("bot-2", ⟨"bot-2", "c2", false, true, 0, some ⟨[]⟩⟩),
             ("bot-3", ⟨"bot-3", "c3", false, true, 0, some ⟨[]⟩⟩)]
            [] LockTable.empty
            ⟨"bot-3", "c3", false, true, 0, some ⟨[]⟩⟩ "g1" true (some "C2") 0).2
        ⟨"bot-2", "c2", false, true, 0, some ⟨[]⟩⟩ "g1" true (some "C2") 0).1 = true := by
  have h2 := failover_firstAvailable
    [("bot-1", ⟨"bot-1", "c1", true, true, 1, some ⟨[("g1", ⟨some "C1"⟩)]⟩⟩),
     ("bot-2", ⟨"bot-2", "c2", false, true, 0, some ⟨[]⟩⟩),
     ("bot-3", ⟨"bot-3", "c3", false, true, 0, some ⟨[]⟩⟩)]
    [] LockTable.empty
    ⟨"bot-2", "c2", false, true, 0, some ⟨[]⟩⟩ "g1" "C2" 0
    ⟨"bot-1", "c1", true, true, 1, some ⟨[("g1", ⟨some "C1"⟩)]⟩⟩
    ⟨[("g1", ⟨some "C1"⟩)]⟩ "C1"
    rfl (by decide)
    (by intro a ha; simp [findById] at ha)
    (by intro e he; simp [LockTable.empty] at he)
    (by decide) rfl (by decide) (by decide)
  have h3 := failover_firstAvailable
    [("bot-1", ⟨"bot-1", "c1", true, true, 1, some ⟨[("g1", ⟨some "C1"⟩)]⟩⟩),
     ("bot-2", ⟨"bot-2", "c2", false, true, 0, some ⟨[]⟩⟩),
     ("bot-3", ⟨"bot-3", "c3", false, true, 0, some ⟨[]⟩⟩)]
    [] LockTable.empty
    ⟨"bot-3", "c3", false, true, 0, some ⟨[]⟩⟩ "g1" "C2" 0
    ⟨"bot-1", "c1", true, true, 1, some ⟨[("g1", ⟨some "C1"⟩)]⟩⟩
    ⟨[("g1", ⟨some "C1"⟩)]⟩ "C1"
    rfl (by decide)
    (by intro a ha; simp [findById] at ha)
    (by intro e he; simp [LockTable.empty] at he)
    (by decide) rfl (by decide) (by decide)
  refine ⟨?_, ?_, by decide, by decide⟩
  · refine h2.mpr ⟨("bot-2", ⟨"bot-2", "c2", false, true, 0, some ⟨[]⟩⟩), by decide, by decide⟩
  · cases hres : (shouldHandleCommand
        [("bot-1", ⟨"bot-1", "c1", true, true, 1, some ⟨[("g1", ⟨some "C1"⟩)]⟩⟩),
         ("bot-2", ⟨"bot-2", "c2", false, true, 0, some ⟨[]⟩⟩),
         ("bot-3", ⟨"bot-3", "c3", false, true, 0, some ⟨[]⟩⟩)]
        [] LockTable.empty
        ⟨"bot-3", "c3", false, true, 0, some ⟨[]⟩⟩ "g1" true (some "C2") 0).1
    · rfl
    · exfalso
      obtain ⟨fb, hfb, hbid⟩ := h3.mp hres
      have hfa : firstAvailableFailover
          [("bot-1", ⟨"bot-1", "c1", true, true, 1, some ⟨[("g1", ⟨some "C1"⟩)]⟩⟩),
           ("bot-2", ⟨"bot-2", "c2", false, true, 0, some ⟨[]⟩⟩),
           ("bot-3", ⟨"bot-3", "c3", false, true, 0, some ⟨[]⟩⟩)] "g1" "C2"
          = some ("bot-2", ⟨"bot-2", "c2", false, true, 0, some ⟨[]⟩⟩) := by decide
      rw [hfa] at hfb
      injection hfb with hfb
      rw [← hfb] at hbid
      exact absurd hbid (by decide)
